import Mathlib

/-!
Verification of `src/sync.rs` (glium sync fences).

The Rust code is shallowly embedded as follows.

* The OpenGL device is a record `Gl` of response functions: `FenceSync`
  returns the opaque sync handle the driver hands back, `ClientWaitSync`
  returns the poll result code.  `GLsync` handles are modelled as `Nat`.
* Every device call an operation performs is recorded, in order, in a
  `List GlCall` trace; a closure handed to the executor
  (`display.context.context.exec`) is modelled as a `Submission`: its trace
  plus whether the submitting thread blocks on a reply channel
  (`roundTrip = true` for the `mpsc` round trips, `false` for the
  fire-and-forget cleanup in `Drop`).
* Rust panics are explicit: an `Outcome` is either `normal` or
  `panicked msg` with an enumerated message; the `Option::unwrap` panic on a
  missing id in `wait` / `wait_and_drop` is rendered as the whole operation
  returning `none` (the panic happens before anything is submitted).
-/

namespace Glium

/-- Result code `gl::ALREADY_SIGNALED` (external `gl` crate constant). -/
def ALREADY_SIGNALED : Nat := 0x911A

/-- Result code `gl::TIMEOUT_EXPIRED` (external `gl` crate constant). -/
def TIMEOUT_EXPIRED : Nat := 0x911B

/-- Result code `gl::CONDITION_SATISFIED` (external `gl` crate constant). -/
def CONDITION_SATISFIED : Nat := 0x911C

/-- Result code `gl::WAIT_FAILED` (external `gl` crate constant). -/
def WAIT_FAILED : Nat := 0x911D

/-- Flag `gl::SYNC_FLUSH_COMMANDS_BIT` (external `gl` crate constant). -/
def SYNC_FLUSH_COMMANDS_BIT : Nat := 0x00000001

/-- Condition `gl::SYNC_GPU_COMMANDS_COMPLETE` (external `gl` crate constant). -/
def SYNC_GPU_COMMANDS_COMPLETE : Nat := 0x9117

/-- The deadline passed to `ClientWaitSync`; the source writes the product
`365 * 24 * 3600 * 1000 * 1000 * 1000` inline at both call sites
(`SyncFence::wait` and `SyncFencePrototype::wait_and_drop`). -/
def oneYearNanoseconds : Nat := 365 * 24 * 3600 * 1000 * 1000 * 1000

/-- Modelled from the spec: `context::GlVersion` (the file `context.rs` is not
under `src/`); a major/minor pair whose order, per the spec's "reported
version is below the minimum (3.2)", is the usual lexicographic order that
Rust derives for the tuple struct `GlVersion(u8, u8)`. -/
structure GlVersion where
  major : Nat
  minor : Nat
  deriving DecidableEq

/-- Lexicographic strict order on versions, i.e. Rust's derived `<`. -/
def GlVersion.isBelow (a b : GlVersion) : Bool :=
  a.major < b.major || (a.major == b.major && a.minor < b.minor)

/-- The extension flags of the context; only `gl_arb_sync` is consulted here. -/
structure Extensions where
  gl_arb_sync : Bool
  deriving DecidableEq

/-- The device's response functions: what each GL entry point returns when
called with the given arguments.  `FenceSync (condition, flags)` yields the
new sync handle; `ClientWaitSync (sync, flags, timeout_ns)` yields the poll
result code.  `DeleteSync` returns nothing so it has no response function. -/
structure Gl where
  FenceSync : Nat → Nat → Nat
  ClientWaitSync : Nat → Nat → Nat → Nat

/-- The slice of `context::CommandContext` that `sync.rs` reads. -/
structure CommandContext where
  gl : Gl
  version : GlVersion
  extensions : Extensions

/-- One recorded device call, with its arguments. -/
inductive GlCall where
  | fenceSync (condition : Nat) (flags : Nat)
  | clientWaitSync (sync : Nat) (flags : Nat) (timeoutNs : Nat)
  | deleteSync (sync : Nat)
  deriving DecidableEq

/-- How many `DeleteSync` calls a trace contains. -/
def destroyCount (tr : List GlCall) : Nat :=
  (tr.filter fun c => match c with | GlCall.deleteSync _ => true | _ => false).length

/-- How many `FenceSync` (creation) calls a trace contains. -/
def createCount (tr : List GlCall) : Nat :=
  (tr.filter fun c => match c with | GlCall.fenceSync _ _ => true | _ => false).length

/-- A closure handed to the executor: the device calls it performs, in order,
and whether the submitting thread blocks on an `mpsc` reply channel until the
closure has run (`roundTrip = true`) or fires and forgets (`false`). -/
structure Submission where
  trace : List GlCall
  roundTrip : Bool
  deriving DecidableEq

/-- The distinguishable panic sites of `sync.rs`. -/
inductive PanicMsg where
  /-- The explicit message in `SyncFence::wait`'s failure arm. -/
  | couldNotWaitForTheFence
  /-- `Option::unwrap` called on a `None` value. -/
  | unwrapOnNone
  /-- The destructor assertion of `SyncFencePrototype`. -/
  | assertIdIsNone
  deriving DecidableEq

/-- Normal return or panic. -/
inductive Outcome where
  | normal
  | panicked (msg : PanicMsg)
  deriving DecidableEq

/-- The `Display` handle; its contents (the executor machinery) are external
to `sync.rs`, so it carries no data here — submissions are recorded in the
operations' results instead. -/
structure Display where
  deriving DecidableEq

/-- `SyncFencePrototype`: an optional raw sync handle. -/
structure SyncFencePrototype where
  id : Option Nat
  deriving DecidableEq

/-- `SyncFence`: a display handle plus an optional raw sync handle. -/
structure SyncFence where
  display : Display
  id : Option Nat
  deriving DecidableEq

/-- `SyncFencePrototype::new_if_supported` (runs inside the executor): if the
version is below 3.2 and `gl_arb_sync` is absent, return `None` having made
no device call; otherwise issue exactly one `FenceSync` call and wrap the
returned handle.  The result pairs the Rust return value with the trace of
device calls performed. -/
def SyncFencePrototype.new_if_supported (ctxt : CommandContext) :
    Option SyncFencePrototype × List GlCall :=
  if ctxt.version.isBelow ⟨3, 2⟩ && !ctxt.extensions.gl_arb_sync then
    (none, [])
  else
    (some ⟨some (ctxt.gl.FenceSync SYNC_GPU_COMMANDS_COMPLETE 0)⟩,
     [GlCall.fenceSync SYNC_GPU_COMMANDS_COMPLETE 0])

/-- `SyncFencePrototype::into_sync_fence`: `self.id.take()` moves the handle
into the new `SyncFence`, leaving the prototype's slot empty, so the
prototype's destructor (which runs on the consumed `self`) passes its
assertion.  Returns the fence together with the consumed prototype as the
destructor sees it. -/
def SyncFencePrototype.into_sync_fence (p : SyncFencePrototype) (display : Display) :
    SyncFence × SyncFencePrototype :=
  (⟨display, p.id⟩, ⟨none⟩)

/-- `SyncFencePrototype::wait_and_drop` (runs inside the executor):
`self.id.take().unwrap()` — modelled as result `none` when the id is absent —
then one `ClientWaitSync` with the one-year deadline whose result is
discarded, then one `DeleteSync`.  Returns the consumed prototype (as its
destructor sees it) and the trace. -/
def SyncFencePrototype.wait_and_drop (p : SyncFencePrototype) (_ctxt : CommandContext) :
    Option (SyncFencePrototype × List GlCall) :=
  match p.id with
  | none => none
  | some fence =>
    some (⟨none⟩,
      [GlCall.clientWaitSync fence SYNC_FLUSH_COMMANDS_BIT oneYearNanoseconds,
       GlCall.deleteSync fence])

/-- `Drop for SyncFencePrototype`: `assert!(self.id.is_none())`; no device
call is made either way.  Returns the outcome and the (empty) list of
submissions. -/
def SyncFencePrototype.drop (p : SyncFencePrototype) : Outcome × List Submission :=
  (match p.id with
   | none => Outcome.normal
   | some _ => Outcome.panicked PanicMsg.assertIdIsNone, [])

/-- Everything `SyncFence::wait` produces once past the initial
`self.id.take().unwrap()`: the fence as its destructor later sees it
(`id` taken), the single round-trip closure submitted to the executor, the
result code the closure sends back over the channel, and whether the match
on that code returns normally or panics. -/
structure WaitRun where
  post : SyncFence
  sub : Submission
  sent : Nat
  outcome : Outcome
  deriving DecidableEq

/-- `SyncFence::wait`: take the id (`none` here models the `unwrap` panic on
an already-consumed fence, before anything is submitted); submit one
round-trip closure that polls with `ClientWaitSync` (flush flag, one-year
deadline), sends the result code back, then unconditionally `DeleteSync`s;
finally classify the received code: `ALREADY_SIGNALED` or
`CONDITION_SATISFIED` return normally, anything else panics. -/
def SyncFence.wait (f : SyncFence) (ctxt : CommandContext) : Option WaitRun :=
  match f.id with
  | none => none
  | some sync =>
    let result := ctxt.gl.ClientWaitSync sync SYNC_FLUSH_COMMANDS_BIT oneYearNanoseconds
    some
      { post := ⟨f.display, none⟩
        sub := ⟨[GlCall.clientWaitSync sync SYNC_FLUSH_COMMANDS_BIT oneYearNanoseconds,
                 GlCall.deleteSync sync], true⟩
        sent := result
        outcome :=
          if result == ALREADY_SIGNALED || result == CONDITION_SATISFIED then
            Outcome.normal
          else
            Outcome.panicked PanicMsg.couldNotWaitForTheFence }

/-- `Drop for SyncFence`: if the id was already taken, return at once
submitting nothing; otherwise submit one fire-and-forget closure that
`DeleteSync`s the handle — the dropping thread does not wait on a channel. -/
def SyncFence.drop (f : SyncFence) : List Submission :=
  match f.id with
  | none => []
  | some s => [⟨[GlCall.deleteSync s], false⟩]

/-- `SyncFence::new_if_supported`: submit one round-trip closure that runs
`SyncFencePrototype::new_if_supported` in the executor and sends the
prototype back; on reception, map it through `into_sync_fence`. -/
def SyncFence.new_if_supported (display : Display) (ctxt : CommandContext) :
    Option SyncFence × Submission :=
  let r := SyncFencePrototype.new_if_supported ctxt
  (r.1.map fun p => (p.into_sync_fence display).1, ⟨r.2, true⟩)

/-- `SyncFence::new` (the `gl_sync` feature): the body is
`FenceSync::new_if_supported().unwrap()`, read — no type or function of that
name exists — as `SyncFence::new_if_supported(display).unwrap()`: the checked
constructor followed by an `unwrap` that panics when it returned `None`. -/
def SyncFence.new (display : Display) (ctxt : CommandContext) :
    Outcome × Option SyncFence × Submission :=
  let r := SyncFence.new_if_supported display ctxt
  (match r.1 with
   | some _ => Outcome.normal
   | none => Outcome.panicked PanicMsg.unwrapOnNone, r.1, r.2)

/-- The body of `SyncFencePrototype::new` (the `gl_sync` feature) as written:
a bare `FenceSync` device call whose raw handle is the returned value, even
though the declared return type is `SyncFencePrototype`; the handle is never
wrapped in a prototype.  Returns that raw value and the trace. -/
def SyncFencePrototype.new_body (ctxt : CommandContext) : Nat × List GlCall :=
  (ctxt.gl.FenceSync SYNC_GPU_COMMANDS_COMPLETE 0,
   [GlCall.fenceSync SYNC_GPU_COMMANDS_COMPLETE 0])

/-- A device that reports every fence as already signaled; `FenceSync`
hands out handle 7. -/
def glSignaled : Gl := ⟨fun _ _ => 7, fun _ _ _ => ALREADY_SIGNALED⟩

/-- A device whose polls always time out. -/
def glTimedOut : Gl := ⟨fun _ _ => 7, fun _ _ _ => TIMEOUT_EXPIRED⟩

/-- A device whose polls always fail. -/
def glWaitFails : Gl := ⟨fun _ _ => 7, fun _ _ _ => WAIT_FAILED⟩

/-- A supported context (version 4.1) on the always-signaled device. -/
def ctxtSignaled : CommandContext := ⟨glSignaled, ⟨4, 1⟩, ⟨false⟩⟩

/-- A supported context whose polls time out. -/
def ctxtTimedOut : CommandContext := ⟨glTimedOut, ⟨4, 1⟩, ⟨false⟩⟩

/-- A supported context whose polls fail. -/
def ctxtWaitFails : CommandContext := ⟨glWaitFails, ⟨4, 1⟩, ⟨false⟩⟩

/-- A context below version 3.2 without `gl_arb_sync`. -/
def ctxtUnsupported : CommandContext := ⟨glSignaled, ⟨1, 5⟩, ⟨false⟩⟩

/-- A concrete display value. -/
def display0 : Display := ⟨⟩

/-- A fence holding handle 7. -/
def fence7 : SyncFence := ⟨display0, some 7⟩

/-- A fence whose id has been consumed. -/
def fenceSpent : SyncFence := ⟨display0, none⟩

/-- A prototype holding handle 7. -/
def proto7 : SyncFencePrototype := ⟨some 7⟩

/-- A prototype holding handle 9. -/
def proto9 : SyncFencePrototype := ⟨some 9⟩

/-- C1: `SyncFence::wait` returns normally iff the result code received from
the executor is `ALREADY_SIGNALED` or `CONDITION_SATISFIED`; every other
code makes it panic "Could not wait for the fence" — never success. -/
theorem wait_returns_iff_success (f : SyncFence) (ctxt : CommandContext)
    (run : WaitRun) (h : f.wait ctxt = some run) :
    (run.outcome = Outcome.normal ↔
      (run.sent = ALREADY_SIGNALED ∨ run.sent = CONDITION_SATISFIED)) ∧
    (run.outcome = Outcome.normal ∨
      run.outcome = Outcome.panicked PanicMsg.couldNotWaitForTheFence) := by
  cases hf : f.id with
  | none => simp [SyncFence.wait, hf] at h
  | some s =>
    simp only [SyncFence.wait, hf, Option.some.injEq] at h
    subst h
    by_cases h1 : ctxt.gl.ClientWaitSync s SYNC_FLUSH_COMMANDS_BIT oneYearNanoseconds
        = ALREADY_SIGNALED
    · simp [h1]
    · by_cases h2 : ctxt.gl.ClientWaitSync s SYNC_FLUSH_COMMANDS_BIT oneYearNanoseconds
          = CONDITION_SATISFIED
      · simp [h2]
      · simp [h1, h2]

/-- The run `wait` produces on handle 7 under the timing-out device. -/
def waitRunTimedOut : WaitRun :=
  ⟨⟨⟨⟩, none⟩,
   ⟨[GlCall.clientWaitSync 7 SYNC_FLUSH_COMMANDS_BIT oneYearNanoseconds,
     GlCall.deleteSync 7], true⟩,
   TIMEOUT_EXPIRED,
   Outcome.panicked PanicMsg.couldNotWaitForTheFence⟩

theorem wait_returns_iff_success_witness :
    fence7.wait ctxtTimedOut = some waitRunTimedOut ∧
    ((waitRunTimedOut.outcome = Outcome.normal ↔
       (waitRunTimedOut.sent = ALREADY_SIGNALED ∨
        waitRunTimedOut.sent = CONDITION_SATISFIED)) ∧
     (waitRunTimedOut.outcome = Outcome.normal ∨
      waitRunTimedOut.outcome = Outcome.panicked PanicMsg.couldNotWaitForTheFence)) :=
  ⟨by decide, wait_returns_iff_success fence7 ctxtTimedOut waitRunTimedOut (by decide)⟩

/-- C2: `SyncFencePrototype::new_if_supported` returns `None` and performs no
device call exactly when the version is below 3.2 and `gl_arb_sync` is
absent; otherwise it performs exactly one `FenceSync` call and wraps the
returned handle in the prototype's id. -/
theorem new_if_supported_gating (ctxt : CommandContext) :
    ((SyncFencePrototype.new_if_supported ctxt).1 = none ↔
      (ctxt.version.isBelow ⟨3, 2⟩ && !ctxt.extensions.gl_arb_sync) = true) ∧
    (if ctxt.version.isBelow ⟨3, 2⟩ && !ctxt.extensions.gl_arb_sync then
       SyncFencePrototype.new_if_supported ctxt = (none, [])
     else
       SyncFencePrototype.new_if_supported ctxt =
         (some ⟨some (ctxt.gl.FenceSync SYNC_GPU_COMMANDS_COMPLETE 0)⟩,
          [GlCall.fenceSync SYNC_GPU_COMMANDS_COMPLETE 0])) := by
  unfold SyncFencePrototype.new_if_supported
  by_cases hc : (ctxt.version.isBelow ⟨3, 2⟩ && !ctxt.extensions.gl_arb_sync) = true <;>
    simp [hc]

/-- C3: for a handle whose id is present, the closure `wait` submits performs
exactly one `ClientWaitSync` poll followed by exactly one `DeleteSync`, in
that order, whatever result code the device returns (the trace is the same
for every context, timing-out and failing devices included), and the
submission is a blocking round trip. -/
theorem wait_closure_polls_then_destroys (f : SyncFence) (ctxt : CommandContext)
    (s : Nat) (h : f.id = some s) :
    ∃ run, f.wait ctxt = some run ∧
      run.sub.trace =
        [GlCall.clientWaitSync s SYNC_FLUSH_COMMANDS_BIT oneYearNanoseconds,
         GlCall.deleteSync s] ∧
      run.sub.roundTrip = true := by
  simp only [SyncFence.wait, h]
  exact ⟨_, rfl, rfl, rfl⟩

theorem wait_closure_polls_then_destroys_witness :
    fence7.id = some 7 ∧
    ∃ run, fence7.wait ctxtTimedOut = some run ∧
      run.sub.trace =
        [GlCall.clientWaitSync 7 SYNC_FLUSH_COMMANDS_BIT oneYearNanoseconds,
         GlCall.deleteSync 7] ∧
      run.sub.roundTrip = true :=
  ⟨rfl, wait_closure_polls_then_destroys fence7 ctxtTimedOut 7 rfl⟩

/-- C4: along the sanctioned chain, the id moves `Some → None` exactly once:
creation issues no destroy, `into_sync_fence` empties the prototype (whose
destructor then passes), `wait` issues exactly one destroy and leaves the
fence empty so its destructor submits nothing, and the alternative chain
that drops the un-waited fence also issues exactly one destroy. -/
theorem single_destroy_per_object (ctxt ctxt2 : CommandContext) (d : Display)
    (p : SyncFencePrototype) (tr : List GlCall)
    (h : SyncFencePrototype.new_if_supported ctxt = (some p, tr)) :
    destroyCount tr = 0 ∧
    (p.into_sync_fence d).2.id = none ∧
    ((p.into_sync_fence d).2.drop).1 = Outcome.normal ∧
    (∀ run, (p.into_sync_fence d).1.wait ctxt2 = some run →
      destroyCount run.sub.trace = 1 ∧ run.post.id = none ∧ run.post.drop = []) ∧
    destroyCount (((p.into_sync_fence d).1.drop).map Submission.trace).flatten = 1 := by
  unfold SyncFencePrototype.new_if_supported at h
  split at h
  · simp at h
  · simp only [Prod.mk.injEq, Option.some.injEq] at h
    obtain ⟨hp, htr⟩ := h
    subst hp
    subst htr
    refine ⟨rfl, rfl, rfl, ?_, rfl⟩
    intro run hr
    simp only [SyncFencePrototype.into_sync_fence, SyncFence.wait,
      Option.some.injEq] at hr
    subst hr
    exact ⟨rfl, rfl, rfl⟩

theorem single_destroy_per_object_witness :
    SyncFencePrototype.new_if_supported ctxtSignaled =
      (some proto7, [GlCall.fenceSync SYNC_GPU_COMMANDS_COMPLETE 0]) ∧
    (destroyCount [GlCall.fenceSync SYNC_GPU_COMMANDS_COMPLETE 0] = 0 ∧
     (proto7.into_sync_fence display0).2.id = none ∧
     ((proto7.into_sync_fence display0).2.drop).1 = Outcome.normal ∧
     (∀ run, (proto7.into_sync_fence display0).1.wait ctxtWaitFails = some run →
       destroyCount run.sub.trace = 1 ∧ run.post.id = none ∧ run.post.drop = []) ∧
     destroyCount (((proto7.into_sync_fence display0).1.drop).map
       Submission.trace).flatten = 1) :=
  ⟨by decide, single_destroy_per_object ctxtSignaled ctxtWaitFails display0 proto7
    [GlCall.fenceSync SYNC_GPU_COMMANDS_COMPLETE 0] (by decide)⟩

/-- C5: dropping a prototype panics (the destructor assertion) iff its id is
still present; with the id consumed it returns normally, and in neither case
is any device call submitted. -/
theorem prototype_drop_panics_iff_live (p : SyncFencePrototype) :
    (p.drop.1 = Outcome.panicked PanicMsg.assertIdIsNone ↔ p.id.isSome = true) ∧
    p.drop.1 = (if p.id.isSome then Outcome.panicked PanicMsg.assertIdIsNone
                else Outcome.normal) ∧
    p.drop.2 = [] := by
  obtain ⟨_ | s⟩ := p <;> simp [SyncFencePrototype.drop]

/-- C6: dropping a fence whose id is present submits exactly one
fire-and-forget closure (`roundTrip = false`: the dropping thread does not
block) whose trace is the single `DeleteSync`; dropping a fence whose id is
absent submits nothing. -/
theorem fence_drop_cleanup (f : SyncFence) :
    (∀ s, f.id = some s → f.drop = [⟨[GlCall.deleteSync s], false⟩]) ∧
    (f.id = none → f.drop = []) := by
  obtain ⟨d, _ | s⟩ := f
  · exact ⟨fun s hs => by simp at hs, fun _ => rfl⟩
  · refine ⟨fun t ht => ?_, fun hn => by simp at hn⟩
    simp only [Option.some.injEq] at ht
    subst ht
    rfl

theorem fence_drop_cleanup_witness :
    fence7.drop = [⟨[GlCall.deleteSync 7], false⟩] ∧
    fenceSpent.drop = [] :=
  ⟨(fence_drop_cleanup fence7).1 7 rfl, (fence_drop_cleanup fenceSpent).2 rfl⟩

/-- C7: whenever `new_if_supported` yields a prototype, the fence obtained
through `into_sync_fence` has a present id, so the `self.id.take().unwrap()`
opening `wait` cannot hit its `None` branch (wait's result is `some`, i.e.
no unwrap panic, under every context). -/
theorem sanctioned_handle_never_hits_unwrap (ctxt ctxt2 : CommandContext)
    (d : Display) (p : SyncFencePrototype) (tr : List GlCall)
    (h : SyncFencePrototype.new_if_supported ctxt = (some p, tr)) :
    (p.into_sync_fence d).1.id.isSome = true ∧
    ((p.into_sync_fence d).1.wait ctxt2).isSome = true := by
  unfold SyncFencePrototype.new_if_supported at h
  split at h
  · simp at h
  · simp only [Prod.mk.injEq, Option.some.injEq] at h
    obtain ⟨hp, _⟩ := h
    subst hp
    exact ⟨rfl, rfl⟩

theorem sanctioned_handle_never_hits_unwrap_witness :
    SyncFencePrototype.new_if_supported ctxtSignaled =
      (some proto7, [GlCall.fenceSync SYNC_GPU_COMMANDS_COMPLETE 0]) ∧
    ((proto7.into_sync_fence display0).1.id.isSome = true ∧
     ((proto7.into_sync_fence display0).1.wait ctxtTimedOut).isSome = true) :=
  ⟨by decide, sanctioned_handle_never_hits_unwrap ctxtSignaled ctxtTimedOut display0
    proto7 [GlCall.fenceSync SYNC_GPU_COMMANDS_COMPLETE 0] (by decide)⟩

/-- C8: both `wait` and `wait_and_drop` hand `ClientWaitSync` the deadline
`365 * 24 * 3600 * 1000 * 1000 * 1000` = 31 536 000 000 000 000 ns, which
fits an unsigned 64-bit argument. -/
theorem one_year_deadline (f : SyncFence) (p : SyncFencePrototype)
    (ctxt : CommandContext) (s t : Nat)
    (hf : f.id = some s) (hp : p.id = some t) :
    oneYearNanoseconds = 31536000000000000 ∧
    oneYearNanoseconds < 2 ^ 64 ∧
    (∀ run, f.wait ctxt = some run →
      run.sub.trace.head? =
        some (GlCall.clientWaitSync s SYNC_FLUSH_COMMANDS_BIT 31536000000000000)) ∧
    (∀ q tr, p.wait_and_drop ctxt = some (q, tr) →
      tr.head? =
        some (GlCall.clientWaitSync t SYNC_FLUSH_COMMANDS_BIT 31536000000000000)) := by
  refine ⟨by norm_num [oneYearNanoseconds], by norm_num [oneYearNanoseconds], ?_, ?_⟩
  · intro run hr
    simp only [SyncFence.wait, hf, Option.some.injEq] at hr
    subst hr
    simp [oneYearNanoseconds]
  · intro q tr hr
    simp only [SyncFencePrototype.wait_and_drop, hp, Option.some.injEq,
      Prod.mk.injEq] at hr
    obtain ⟨_, htr⟩ := hr
    subst htr
    simp [oneYearNanoseconds]

theorem one_year_deadline_witness :
    (fence7.id = some 7 ∧ proto9.id = some 9) ∧
    (oneYearNanoseconds = 31536000000000000 ∧
     oneYearNanoseconds < 2 ^ 64 ∧
     (∀ run, fence7.wait ctxtSignaled = some run →
       run.sub.trace.head? =
         some (GlCall.clientWaitSync 7 SYNC_FLUSH_COMMANDS_BIT 31536000000000000)) ∧
     (∀ q tr, proto9.wait_and_drop ctxtSignaled = some (q, tr) →
       tr.head? =
         some (GlCall.clientWaitSync 9 SYNC_FLUSH_COMMANDS_BIT 31536000000000000))) :=
  ⟨⟨rfl, rfl⟩, one_year_deadline fence7 proto9 ctxtSignaled 7 9 rfl rfl⟩

/-- C9 (code bug): `SyncFence::new`, read with its `FenceSync::
new_if_supported().unwrap()` slip resolved to the only constructor of that
name, does perform the capability check: on a context below 3.2 without
`gl_arb_sync` it panics on the `unwrap`, returns no handle, and performs no
creation call — contrary to the claim that the `gl_sync` variants skip the
check and always return a live handle wrapping one creation call. -/
theorem gl_sync_new_checks_and_panics_when_unsupported :
    (SyncFence.new ⟨⟩ ctxtUnsupported).1 = Outcome.panicked PanicMsg.unwrapOnNone ∧
    (SyncFence.new ⟨⟩ ctxtUnsupported).2.1 = none ∧
    createCount (SyncFence.new ⟨⟩ ctxtUnsupported).2.2.trace = 0 := by decide

/-- C10: with a present id, `wait_and_drop` performs one poll then one
destroy, leaves the prototype's id `None` (its destructor then passes), and
— in contrast with `wait` — returns normally under every context, the poll's
result code never being inspected (the result is identical under any two
contexts, failing and timing-out devices included). -/
theorem wait_and_drop_never_fails (p : SyncFencePrototype)
    (ctxt ctxt2 : CommandContext) (s : Nat) (h : p.id = some s) :
    p.wait_and_drop ctxt =
      some (⟨none⟩,
        [GlCall.clientWaitSync s SYNC_FLUSH_COMMANDS_BIT oneYearNanoseconds,
         GlCall.deleteSync s]) ∧
    p.wait_and_drop ctxt = p.wait_and_drop ctxt2 ∧
    (SyncFencePrototype.drop ⟨none⟩).1 = Outcome.normal := by
  simp [SyncFencePrototype.wait_and_drop, h, SyncFencePrototype.drop]

theorem wait_and_drop_never_fails_witness :
    proto7.id = some 7 ∧
    (proto7.wait_and_drop ctxtWaitFails =
      some (⟨none⟩,
        [GlCall.clientWaitSync 7 SYNC_FLUSH_COMMANDS_BIT oneYearNanoseconds,
         GlCall.deleteSync 7]) ∧
     proto7.wait_and_drop ctxtWaitFails = proto7.wait_and_drop ctxtTimedOut ∧
     (SyncFencePrototype.drop ⟨none⟩).1 = Outcome.normal) :=
  ⟨rfl, wait_and_drop_never_fails proto7 ctxtWaitFails ctxtTimedOut 7 rfl⟩

end Glium
